import Mathlib

/-!
Shallow embedding of the OpenGL wrapper code of `learning-ge-rust`
(src/buffers.rs, src/shaders.rs, and the duplicated copies inside
src/main.rs), together with proofs settling the frozen claims about it.

Modelling conventions:
* GL object identifiers and `GLenum` values are `Nat`.
* Byte buffers (shader source, driver info logs, uploaded data) are
  `List Nat` of byte values.
* The GPU driver is an oracle: the compile/link status flag and the
  info-log bytes the driver would report are passed as parameters.
* GL calls that matter to the claims are either recorded in a `GLCmd`
  trace (shader/program construction and `Drop` impls) or modelled as
  transformers of an explicit `GLState` (buffer binding, buffer data,
  vertex-attribute configuration).
* Rust control flow that can panic (`.unwrap()`) is modelled by the
  `RustOutcome` wrapper; drops that run when a value goes out of scope
  (including during unwinding) are part of the recorded trace.
-/

/-- GL enum constant: `gl::ARRAY_BUFFER` (0x8892). -/
def GL_ARRAY_BUFFER : Nat := 34962

/-- GL enum constant: `gl::ELEMENT_ARRAY_BUFFER` (0x8893). -/
def GL_ELEMENT_ARRAY_BUFFER : Nat := 34963

/-- GL enum constant: `gl::VERTEX_SHADER` (0x8B31). -/
def GL_VERTEX_SHADER : Nat := 35633

/-- GL enum constant: `gl::FRAGMENT_SHADER` (0x8B30). -/
def GL_FRAGMENT_SHADER : Nat := 35632

/-- GL enum constant: `gl::STATIC_DRAW` (0x88E4). -/
def GL_STATIC_DRAW : Nat := 35044

/-- GL commands issued by the embedded code, as recorded in traces.
Identifiers are `Nat`; the command constructor records which *kind* of
GL object a call creates or releases, which is what claims C1, C2 and
C5 are about. -/
inductive GLCmd : Type
  | createShader (shaderType id : Nat)
  | shaderSource (id : Nat) (src : List Nat)
  | compileShader (id : Nat)
  | deleteShader (id : Nat)
  | createProgram (id : Nat)
  | attachShader (programId shaderId : Nat)
  | linkProgram (id : Nat)
  | deleteProgram (id : Nat)
  | deleteBuffers (ids : List Nat)
  | deleteVertexArrays (ids : List Nat)
  deriving DecidableEq, Repr

/-- Outcome of running a Rust function that may panic: either it
returns a value, or it panics (unwinding, after running the drops of
its live locals). -/
inductive RustOutcome (α : Type) : Type
  | ok (val : α)
  | panicked
  deriving DecidableEq, Repr

/-- Whether a byte is a UTF-8 continuation byte (0x80..=0xBF). -/
def isUtf8Cont (b : Nat) : Bool := 128 ≤ b && b ≤ 191

/-- UTF-8 validity of a byte sequence, following the standard table
used by Rust's `String::from_utf8` (rejecting overlong encodings,
surrogates, and code points above U+10FFFF). -/
def utf8IsValid : List Nat → Bool
  | [] => true
  | b :: rest =>
    if b < 128 then utf8IsValid rest
    else if b < 194 then false            -- 0x80..=0xC1: cont byte or overlong lead
    else if b ≤ 223 then                  -- 0xC2..=0xDF: two-byte sequence
      match rest with
      | c1 :: r => isUtf8Cont c1 && utf8IsValid r
      | [] => false
    else if b ≤ 239 then                  -- 0xE0..=0xEF: three-byte sequence
      match rest with
      | c1 :: c2 :: r =>
        (if b = 224 then 160 ≤ c1 && c1 ≤ 191
         else if b = 237 then 128 ≤ c1 && c1 ≤ 159
         else isUtf8Cont c1)
        && isUtf8Cont c2 && utf8IsValid r
      | _ => false
    else if b ≤ 244 then                  -- 0xF0..=0xF4: four-byte sequence
      match rest with
      | c1 :: c2 :: c3 :: r =>
        (if b = 240 then 144 ≤ c1 && c1 ≤ 191
         else if b = 244 then 128 ≤ c1 && c1 ≤ 143
         else isUtf8Cont c1)
        && isUtf8Cont c2 && isUtf8Cont c3 && utf8IsValid r
      | _ => false
    else false                            -- 0xF5..: invalid lead byte

/-- `String::from_utf8`: returns the byte sequence itself (a valid
UTF-8 string is represented by its bytes) or fails. -/
def stringFromUtf8 (bs : List Nat) : Option (List Nat) :=
  if utf8IsValid bs then some bs else none

/-- `CString::new`: fails exactly when the bytes contain a NUL. -/
def cstringNew (bs : List Nat) : Option (List Nat) :=
  if bs.contains 0 then none else some bs

/-- The `ShaderError` enum of src/shaders.rs. `CompilationError` and
`LinkingError` carry the decoded driver log (as its bytes); the
`Utf8Error` and `NulError` variants exist for the `#[from]`
conversions of `FromUtf8Error` and `std::ffi::NulError` (their payload
carries no information the claims use, so it is not modelled). -/
inductive ShaderError : Type
  | CompilationError (log : List Nat)
  | LinkingError (log : List Nat)
  | Utf8Error
  | NulError
  deriving DecidableEq, Repr

deriving instance DecidableEq for Except

/-- The `Shader` struct: one GPU shader-stage object identifier. -/
structure Shader where
  id : Nat
  deriving DecidableEq, Repr

/-- The `ShaderProgram` struct: one GPU program object identifier. -/
structure ShaderProgram where
  id : Nat
  deriving DecidableEq, Repr

/-- `impl Drop for Shader`: `gl::DeleteShader(self.id)`. -/
def Shader.dropCmds (sh : Shader) : List GLCmd :=
  [GLCmd.deleteShader sh.id]

/-- `impl Drop for ShaderProgram` (src/shaders.rs lines 108-114 and the
identical copy in src/main.rs lines 167-173): the body calls
`gl::DeleteShader(self.id)` — not `gl::DeleteProgram`. -/
def ShaderProgram.dropCmds (p : ShaderProgram) : List GLCmd :=
  [GLCmd.deleteShader p.id]

/-- Result of running `Shader::new`: the returned value (or panic) and
the trace of GL commands issued, drops included. -/
structure ShaderRun where
  outcome : RustOutcome (Except ShaderError Shader)
  trace : List GLCmd
  deriving Repr

/-- `Shader::new(shader_source, shader_type)` of src/shaders.rs.
`sid` is the identifier `gl::CreateShader` returns; `success` is the
driver's `COMPILE_STATUS` report and `logBytes` its info-log bytes
(oracle parameters, only consulted when compilation actually runs).
Control flow of the source:
1. `gl::CreateShader` (the `shader` local now owns `sid`);
2. `CString::new(shader_source).unwrap()` — panics on an interior NUL,
   dropping `shader` during unwinding;
3. `gl::ShaderSource`, `gl::CompileShader`, `gl::GetShaderiv`;
4. on success, return `Ok(shader)` (no drop);
5. on failure, read the info log and `String::from_utf8(..).unwrap()` —
   panics on invalid UTF-8; otherwise return
   `Err(CompilationError(log))`. On both failure paths `shader` is
   dropped, issuing `gl::DeleteShader(sid)`. -/
def shaderNew (srcBytes : List Nat) (shaderType sid : Nat)
    (success : Bool) (logBytes : List Nat) : ShaderRun :=
  match cstringNew srcBytes with
  | none =>
    { outcome := RustOutcome.panicked
      trace := [GLCmd.createShader shaderType sid, GLCmd.deleteShader sid] }
  | some src =>
    let pre : List GLCmd :=
      [GLCmd.createShader shaderType sid, GLCmd.shaderSource sid src,
       GLCmd.compileShader sid]
    if success then
      { outcome := RustOutcome.ok (Except.ok ⟨sid⟩), trace := pre }
    else
      match stringFromUtf8 logBytes with
      | none =>
        { outcome := RustOutcome.panicked
          trace := pre ++ Shader.dropCmds ⟨sid⟩ }
      | some log =>
        { outcome := RustOutcome.ok (Except.error (ShaderError.CompilationError log))
          trace := pre ++ Shader.dropCmds ⟨sid⟩ }

/-- Result of running `ShaderProgram::new`. -/
structure ProgramRun where
  outcome : RustOutcome (Except ShaderError ShaderProgram)
  trace : List GLCmd
  deriving Repr

/-- `ShaderProgram::new(shaders)` of src/shaders.rs. `pid` is the
identifier `gl::CreateProgram` returns; `shaderIds` the ids of the
input slice in order; `success` the driver's `LINK_STATUS` report and
`logBytes` its info-log bytes. Control flow of the source:
1. `gl::CreateProgram` (the `program` local now owns `pid`);
2. `gl::AttachShader(program.id, shader.id)` for each shader in slice
   order;
3. `gl::LinkProgram`, `gl::GetProgramiv`;
4. on success, return `Ok(program)` (no drop);
5. on failure, read the info log; `String::from_utf8(error_log)?`
   returns `Err(Utf8Error(..))` on invalid UTF-8, otherwise
   `Err(LinkingError(log))`. On both failure paths `program` is
   dropped, issuing its (mistaken) `gl::DeleteShader(pid)`. -/
def programNew (pid : Nat) (shaderIds : List Nat)
    (success : Bool) (logBytes : List Nat) : ProgramRun :=
  let pre : List GLCmd :=
    GLCmd.createProgram pid ::
      (shaderIds.map (fun sid => GLCmd.attachShader pid sid)
        ++ [GLCmd.linkProgram pid])
  if success then
    { outcome := RustOutcome.ok (Except.ok ⟨pid⟩), trace := pre }
  else
    match stringFromUtf8 logBytes with
    | none =>
      { outcome := RustOutcome.ok (Except.error ShaderError.Utf8Error)
        trace := pre ++ ShaderProgram.dropCmds ⟨pid⟩ }
    | some log =>
      { outcome := RustOutcome.ok (Except.error (ShaderError.LinkingError log))
        trace := pre ++ ShaderProgram.dropCmds ⟨pid⟩ }

/-- One vertex-attribute-pointer configuration, as the driver records
it for a slot of a vertex array: the parameters of
`gl::VertexAttribPointer` plus the `ARRAY_BUFFER` binding captured at
call time. -/
structure AttribConfig where
  count : Int
  data_type : Nat
  normalized : Bool
  stride : Int
  offset : Nat
  buffer : Nat
  deriving DecidableEq, Repr

/-- The mutable GPU driver state the buffer and vertex-array wrappers
act on: the per-target buffer binding slots, the bound vertex array,
each buffer's backing store (its uploaded bytes), each vertex array's
per-slot attribute-pointer configuration and enabled flags, and a
fresh-identifier counter for `gl::Gen*` calls. -/
structure GLState where
  nextId : Nat
  boundBuffer : Nat → Nat
  boundVertexArray : Nat
  bufferStore : Nat → List Nat
  attribPointer : Nat → Nat → Option AttribConfig
  attribEnabled : Nat → Nat → Bool

/-- An idle driver state: nothing bound, every store empty. -/
def initState : GLState where
  nextId := 1
  boundBuffer := fun _ => 0
  boundVertexArray := 0
  bufferStore := fun _ => []
  attribPointer := fun _ _ => none
  attribEnabled := fun _ _ => false

/-- `gl::BindBuffer(target, id)`: sets the binding slot of `target`,
leaving every other slot and all other state unchanged. -/
def glBindBuffer (target id : Nat) (s : GLState) : GLState :=
  { s with boundBuffer := fun t => if t = target then id else s.boundBuffer t }

/-- `gl::BufferData(target, size, ptr, usage)`: replaces the backing
store of the buffer currently bound at `target` with the given bytes.
The usage hint is an optimization hint only and leaves no trace in
the modelled state. -/
def glBufferData (target : Nat) (bytes : List Nat) (usage : Nat)
    (s : GLState) : GLState :=
  { s with bufferStore := fun b =>
      if b = s.boundBuffer target then bytes else s.bufferStore b }

/-- `gl::BindVertexArray(id)`. -/
def glBindVertexArray (id : Nat) (s : GLState) : GLState :=
  { s with boundVertexArray := id }

/-- `gl::VertexAttribPointer(location, count, type, normalized, stride,
offset)`: records the configuration for slot `location` of the
currently bound vertex array, capturing the current `ARRAY_BUFFER`
binding as the attribute's source buffer. -/
def glVertexAttribPointer (location : Nat) (count : Int) (data_type : Nat)
    (normalized : Bool) (stride : Int) (offset : Nat) (s : GLState) : GLState :=
  { s with attribPointer := fun v l =>
      if v = s.boundVertexArray then
        if l = location then
          some ⟨count, data_type, normalized, stride, offset,
                s.boundBuffer GL_ARRAY_BUFFER⟩
        else s.attribPointer v l
      else s.attribPointer v l }

/-- `gl::EnableVertexAttribArray(location)`: enables slot `location`
of the currently bound vertex array. -/
def glEnableVertexAttribArray (location : Nat) (s : GLState) : GLState :=
  { s with attribEnabled := fun v l =>
      if v = s.boundVertexArray then
        if l = location then true else s.attribEnabled v l
      else s.attribEnabled v l }

/-- `gl::GenBuffers(1, &mut id)`: hands out a fresh identifier. -/
def glGenBuffers1 (s : GLState) : Nat × GLState :=
  (s.nextId, { s with nextId := s.nextId + 1 })

/-- `gl::GenVertexArrays(1, &mut id)`: hands out a fresh identifier. -/
def glGenVertexArrays1 (s : GLState) : Nat × GLState :=
  (s.nextId, { s with nextId := s.nextId + 1 })

/-- The `Buffer` struct of src/buffers.rs: a GPU buffer identifier and
the `GLenum` target it was created for. -/
structure Buffer where
  id : Nat
  buffer_type : Nat
  deriving DecidableEq, Repr

/-- `Buffer::new(buffer_type)` of src/buffers.rs: `gl::GenBuffers`
assigns the identifier; the function has no error path (it is total)
and tags the buffer with `buffer_type`. -/
def Buffer.new (buffer_type : Nat) (s : GLState) : Buffer × GLState :=
  let g := glGenBuffers1 s
  (⟨g.fst, buffer_type⟩, g.snd)

/-- `Buffer::bind(&self)`: `gl::BindBuffer(self.buffer_type, self.id)`.
The receiver is taken immutably (`&self` in the source), so the
`Buffer` value itself is unchanged; only the driver state moves. -/
def Buffer.bind (b : Buffer) (s : GLState) : GLState :=
  glBindBuffer b.buffer_type b.id s

/-- `<*const T>::align_offset(4)` as used by `<[T]>::align_to::<f32>()`:
the smallest element count `k` such that the address `p + k*S` is
4-byte aligned, if one exists (`S` is the element byte size, `p` the
slice's start address). When a solution exists there is one below 4. -/
def alignOffsetElems (p S : Nat) : Option Nat :=
  [0, 1, 2, 3].find? (fun k => (p + k * S) % 4 = 0)

/-- The byte length of the middle slice of `data.align_to::<f32>()`
for a slice of `N` elements of byte size `S` starting at address `p`,
following the standard-library implementation: skip `align_offset`
elements (all prefix when that exceeds `N` or no aligned address is
reachable), then fit whole `lcm(S,4)`-byte chunks of `f32`s into the
rest. This is the value `size_of_val(data_bytes)` that
`Buffer::set_data` passes to `gl::BufferData` as the upload size. -/
def setDataUploadBytes (p S N : Nat) : Nat :=
  match alignOffsetElems p S with
  | none => 0
  | some k =>
    if N < k then 0
    else
      let g := Nat.gcd S 4
      4 * ((S / g) * ((N - k) / (4 / g)))

/-- `Buffer::set_data::<D>(&self, data, usage)` of src/buffers.rs:
binds the buffer, then calls `gl::BufferData` with the byte size of
the `f32`-aligned middle slice of `data` (`data.align_to::<f32>()`)
but with `data.as_ptr()` as the source pointer — i.e. it uploads the
first `setDataUploadBytes p S N` bytes of the slice's byte image.
`S` is `size_of::<D>()`, `N` is `data.len()`, `p` the address of
`data`, and `bytes` the byte image of `data` (length `N * S`). -/
def Buffer.set_data (b : Buffer) (S N p : Nat) (bytes : List Nat)
    (usage : Nat) (s : GLState) : GLState :=
  let s1 := b.bind s
  glBufferData b.buffer_type (bytes.take (setDataUploadBytes p S N)) usage s1

/-- `impl Drop for Buffer`: `gl::DeleteBuffers(1, [self.id].as_mut_ptr())`. -/
def Buffer.dropCmds (b : Buffer) : List GLCmd :=
  [GLCmd.deleteBuffers [b.id]]

/-- The `VertexArray` struct of src/buffers.rs: one GPU vertex-array
object identifier. -/
structure VertexArray where
  id : Nat
  deriving DecidableEq, Repr

/-- `VertexArray::new()`: `gl::GenVertexArrays` assigns the id. -/
def VertexArray.new (s : GLState) : VertexArray × GLState :=
  let g := glGenVertexArrays1 s
  (⟨g.fst⟩, g.snd)

/-- `VertexArray::bind(&self)`: `gl::BindVertexArray(self.id)`. -/
def VertexArray.bind (va : VertexArray) (s : GLState) : GLState :=
  glBindVertexArray va.id s

/-- `VertexArray::set_layout(&self, location, count, data_type,
normalized, stride)` of src/buffers.rs: calls
`gl::VertexAttribPointer(location, count, data_type, normalized,
stride, 0 as *const c_void)` followed by
`gl::EnableVertexAttribArray(location)`. The receiver is never read
(the body mentions no `self` field), and the pointer offset is the
hard-coded `0`. -/
def VertexArray.set_layout (_va : VertexArray) (location : Nat)
    (count : Int) (data_type : Nat) (normalized : Bool) (stride : Int)
    (s : GLState) : GLState :=
  glEnableVertexAttribArray location
    (glVertexAttribPointer location count data_type normalized stride 0 s)

/-- `impl Drop for VertexArray`: `gl::DeleteVertexArrays(1, &mut self.id)`. -/
def VertexArray.dropCmds (va : VertexArray) : List GLCmd :=
  [GLCmd.deleteVertexArrays [va.id]]

/-- When the element size is a multiple of 4 and the slice address is
4-byte aligned, the `align_to::<f32>` middle slice covers the whole
slice, so `set_data` sizes the upload at the full `N * S` bytes. -/
theorem setDataUploadBytes_aligned (p S N : Nat)
    (hS : S % 4 = 0) (hp : p % 4 = 0) :
    setDataUploadBytes p S N = N * S := by
  obtain ⟨m, rfl⟩ : 4 ∣ S := Nat.dvd_of_mod_eq_zero hS
  have hfind : alignOffsetElems p (4 * m) = some 0 := by
    unfold alignOffsetElems
    simp [List.find?, hp]
  unfold setDataUploadBytes
  rw [hfind]
  have hg : Nat.gcd (4 * m) 4 = 4 := by
    simpa using Nat.gcd_mul_left 4 m 1
  simp [hg, Nat.mul_div_cancel_left]
  ring

/-- C1: the claim that a non-UTF-8 driver info log is reported as an
error value by BOTH constructors fails for `Shader::new`: on a
driver-rejected compilation (`success = false`) whose info-log bytes
are not valid UTF-8 (the single byte 0xFF), `Shader::new` panics via
`String::from_utf8(error_log).unwrap()` instead of returning the
`ShaderError::Utf8Error` value — even though that variant exists with
a `#[from]` conversion and the sibling `ShaderProgram::new` uses `?`
for exactly this situation. -/
theorem c1_shader_new_panics_on_invalid_utf8_log :
    (shaderNew [118] GL_VERTEX_SHADER 1 false [255]).outcome
      = RustOutcome.panicked
    ∧ (shaderNew [118] GL_VERTEX_SHADER 1 false [255]).outcome
      ≠ RustOutcome.ok (Except.error ShaderError.Utf8Error) := by
  decide

/-- C1 (companion fact, program side): `ShaderProgram::new` does
report the decoding failure as an error value, so the claim's slip is
confined to `Shader::new`. -/
theorem program_new_reports_invalid_utf8_log :
    (programNew 3 [1, 2] false [255]).outcome
      = RustOutcome.ok (Except.error ShaderError.Utf8Error) := by
  decide

/-- C2: the claim that destroying a `ShaderProgram` releases exactly
the one program identifier it owns (and no other kind of GPU object)
fails: the `Drop` impl calls `gl::DeleteShader(self.id)`, a
shader-object release, and never issues `gl::DeleteProgram`, so the
program object itself is never released. Shown here on the concrete
program identifier 7. -/
theorem c2_program_drop_releases_wrong_kind :
    ShaderProgram.dropCmds ⟨7⟩ = [GLCmd.deleteShader 7]
    ∧ (ShaderProgram.dropCmds ⟨7⟩).contains (GLCmd.deleteProgram 7) = false := by
  decide

/-- C3 counterexample: the claim fails for element types whose byte
image the `f32`-aligned middle slice does not cover. For one element
of byte size 2 (a `u16`, byte image `[7, 7]`, 4-byte-aligned address
0), `align_to::<f32>` yields an empty middle slice, so `set_data`
passes size 0 to `gl::BufferData`: the backing store becomes empty
instead of the claimed 1 × 2 bytes. -/
theorem c3_counterexample_set_data_u16 :
    (Buffer.set_data ⟨1, GL_ARRAY_BUFFER⟩ 2 1 0 [7, 7] GL_STATIC_DRAW
        initState).bufferStore 1 = []
    ∧ (Buffer.set_data ⟨1, GL_ARRAY_BUFFER⟩ 2 1 0 [7, 7] GL_STATIC_DRAW
        initState).bufferStore 1 ≠ [7, 7] := by
  decide

/-- C3 as amended: for element types whose size is a multiple of 4 and
whose data starts at a 4-byte-aligned address — which covers every
element type this program uses (`[f32; 3]` vertices and 4-byte integer
indices) — `Buffer::set_data` replaces the buffer's backing store with
exactly the full `N * S`-byte image of `data`, including `N = 0`,
which uploads zero bytes. -/
theorem c3_set_data_full_upload (b : Buffer) (S N p usage : Nat)
    (bytes : List Nat) (s : GLState)
    (hS : S % 4 = 0) (hp : p % 4 = 0) (hlen : bytes.length = N * S) :
    (b.set_data S N p bytes usage s).bufferStore b.id = bytes := by
  unfold Buffer.set_data glBufferData Buffer.bind glBindBuffer
  simp [setDataUploadBytes_aligned p S N hS hp, ← hlen, List.take_length]

/-- Witness for the amended C3: uploading two 4-byte elements (byte
image of length 8) stores exactly those 8 bytes. -/
theorem c3_set_data_full_upload_witness :
    (Buffer.set_data ⟨1, GL_ARRAY_BUFFER⟩ 4 2 0 [1, 2, 3, 4, 5, 6, 7, 8]
        GL_STATIC_DRAW initState).bufferStore 1 = [1, 2, 3, 4, 5, 6, 7, 8] :=
  c3_set_data_full_upload ⟨1, GL_ARRAY_BUFFER⟩ 4 2 0 GL_STATIC_DRAW
    [1, 2, 3, 4, 5, 6, 7, 8] initState (by decide) (by decide) (by decide)

/-- C4: when the shader source text contains an interior NUL byte,
`Shader::new` panics at `CString::new(shader_source).unwrap()` —
before the driver is ever consulted — instead of returning the
`ShaderError::NulError` variant provided for exactly this failure. -/
theorem c4_shader_new_panics_on_interior_nul (src : List Nat)
    (shaderType sid : Nat) (success : Bool) (log : List Nat)
    (h : src.contains 0 = true) :
    (shaderNew src shaderType sid success log).outcome = RustOutcome.panicked
    ∧ (shaderNew src shaderType sid success log).outcome
      ≠ RustOutcome.ok (Except.error ShaderError.NulError) := by
  have hmem : 0 ∈ src := by simpa using h
  simp [shaderNew, cstringNew, hmem]

/-- Witness for C4 at the one-byte source `[0]`. -/
theorem c4_witness :
    ([0] : List Nat).contains 0 = true
    ∧ (shaderNew [0] GL_VERTEX_SHADER 1 true []).outcome
        = RustOutcome.panicked :=
  ⟨by decide,
   (c4_shader_new_panics_on_interior_nul [0] GL_VERTEX_SHADER 1 true []
      (by decide)).1⟩

/-- C5: for every NUL-free source (the only sources for which the
driver is actually consulted), `Shader::new` returns `Ok` exactly when
the driver reports compilation success, and on a reported failure no
`Shader` value reaches the caller while the shader object created
during the attempt is still deleted (the local `shader` is dropped on
both the `Err` path and the panicking invalid-UTF-8 path), so
construction is atomic. -/
theorem c5_shader_new_atomic (src : List Nat) (shaderType sid : Nat)
    (success : Bool) (log : List Nat) (h : src.contains 0 = false) :
    ((shaderNew src shaderType sid success log).outcome
        = RustOutcome.ok (Except.ok ⟨sid⟩) ↔ success = true)
    ∧ (success = false →
        (shaderNew src shaderType sid success log).trace.contains
          (GLCmd.deleteShader sid) = true)
    ∧ (success = false → ∀ sh : Shader,
        (shaderNew src shaderType sid success log).outcome
          ≠ RustOutcome.ok (Except.ok sh)) := by
  have hmem : 0 ∉ src := by simpa using h
  cases success with
  | true => simp [shaderNew, cstringNew, hmem]
  | false =>
    cases hv : stringFromUtf8 log with
    | none => simp [shaderNew, cstringNew, hmem, hv, Shader.dropCmds]
    | some l => simp [shaderNew, cstringNew, hmem, hv, Shader.dropCmds]

/-- Witness for C5 on the NUL-free source `[118]` with a reported
compile failure and the valid-UTF-8 log `[111]`. -/
theorem c5_witness :
    ((shaderNew [118] GL_VERTEX_SHADER 2 false [111]).outcome
        = RustOutcome.ok (Except.ok ⟨2⟩) ↔ false = true)
    ∧ (shaderNew [118] GL_VERTEX_SHADER 2 false [111]).trace.contains
        (GLCmd.deleteShader 2) = true :=
  ⟨(c5_shader_new_atomic [118] GL_VERTEX_SHADER 2 false [111] (by decide)).1,
   (c5_shader_new_atomic [118] GL_VERTEX_SHADER 2 false [111] (by decide)).2.1 rfl⟩

/-- C6 counterexample: on a link failure whose info-log bytes are not
valid UTF-8 (the single byte 0xFF), `ShaderProgram::new` does not
return a `LinkingError` carrying the driver's diagnostic: the `?` on
`String::from_utf8` makes it return the `Utf8Error` variant instead. -/
theorem c6_counterexample_link_failure_invalid_utf8 :
    (programNew 3 [1, 2] false [255]).outcome
      = RustOutcome.ok (Except.error ShaderError.Utf8Error)
    ∧ (programNew 3 [1, 2] false [255]).outcome
      ≠ RustOutcome.ok (Except.error (ShaderError.LinkingError [255])) := by
  decide

/-- C6 as amended: `ShaderProgram::new` creates a new program object,
attaches every stage of the input sequence in input order before
linking, returns the linked program when the driver reports link
success, returns a `LinkingError` carrying the driver's diagnostic
when the driver reports failure and the log decodes as UTF-8, and
returns a `Utf8Error` when the log bytes are not valid UTF-8. -/
theorem c6_program_new_attach_link_report (pid : Nat)
    (shaderIds : List Nat) (success : Bool) (log : List Nat) :
    (∃ rest, (programNew pid shaderIds success log).trace
        = GLCmd.createProgram pid ::
            (shaderIds.map (fun sid => GLCmd.attachShader pid sid)
              ++ GLCmd.linkProgram pid :: rest))
    ∧ (success = true → (programNew pid shaderIds success log).outcome
        = RustOutcome.ok (Except.ok ⟨pid⟩))
    ∧ (success = false → utf8IsValid log = true →
        (programNew pid shaderIds success log).outcome
          = RustOutcome.ok (Except.error (ShaderError.LinkingError log)))
    ∧ (success = false → utf8IsValid log = false →
        (programNew pid shaderIds success log).outcome
          = RustOutcome.ok (Except.error ShaderError.Utf8Error)) := by
  cases success with
  | true =>
    refine ⟨⟨[], by simp [programNew]⟩, ?_, ?_, ?_⟩ <;> simp [programNew]
  | false =>
    cases hv : utf8IsValid log with
    | true =>
      refine ⟨⟨ShaderProgram.dropCmds ⟨pid⟩, ?_⟩, ?_, ?_, ?_⟩ <;>
        simp [programNew, stringFromUtf8, hv]
    | false =>
      refine ⟨⟨ShaderProgram.dropCmds ⟨pid⟩, ?_⟩, ?_, ?_, ?_⟩ <;>
        simp [programNew, stringFromUtf8, hv]

/-- Witness for the amended C6: link failure with the valid-UTF-8 log
bytes of the text hi yields a `LinkingError` carrying those bytes. -/
theorem c6_witness :
    (programNew 3 [1, 2] false [104, 105]).outcome
      = RustOutcome.ok (Except.error (ShaderError.LinkingError [104, 105])) :=
  (c6_program_new_attach_link_report 3 [1, 2] false [104, 105]).2.2.1 rfl
    (by decide)

/-- C7: `Buffer::bind` sets the binding slot of this buffer's kind to
this buffer's identifier, changes no other binding slot (and not the
bound vertex array), and binding buffer `a` then buffer `b` leaves `b`
as the buffer recorded in the slot of b's kind — last-bind-wins. -/
theorem c7_buffer_bind_last_wins (a b : Buffer) (s : GLState) :
    ((b.bind s).boundBuffer b.buffer_type = b.id)
    ∧ (∀ t, t ≠ b.buffer_type → (b.bind s).boundBuffer t = s.boundBuffer t)
    ∧ ((b.bind s).boundVertexArray = s.boundVertexArray)
    ∧ ((b.bind (a.bind s)).boundBuffer b.buffer_type = b.id) := by
  refine ⟨?_, ?_, rfl, ?_⟩
  · simp [Buffer.bind, glBindBuffer]
  · intro t ht
    simp [Buffer.bind, glBindBuffer, ht]
  · simp [Buffer.bind, glBindBuffer]

/-- Witness for C7: binding buffer 1 then buffer 2 (both of kind
`ARRAY_BUFFER`) leaves 2 in the `ARRAY_BUFFER` slot, and the
`ELEMENT_ARRAY_BUFFER` slot is untouched. -/
theorem c7_witness :
    (Buffer.bind ⟨2, GL_ARRAY_BUFFER⟩
        (Buffer.bind ⟨1, GL_ARRAY_BUFFER⟩ initState)).boundBuffer
      GL_ARRAY_BUFFER = 2
    ∧ (Buffer.bind ⟨2, GL_ARRAY_BUFFER⟩ initState).boundBuffer
        GL_ELEMENT_ARRAY_BUFFER
      = initState.boundBuffer GL_ELEMENT_ARRAY_BUFFER :=
  ⟨(c7_buffer_bind_last_wins ⟨1, GL_ARRAY_BUFFER⟩ ⟨2, GL_ARRAY_BUFFER⟩
      initState).2.2.2,
   (c7_buffer_bind_last_wins ⟨1, GL_ARRAY_BUFFER⟩ ⟨2, GL_ARRAY_BUFFER⟩
      initState).2.1 GL_ELEMENT_ARRAY_BUFFER (by decide)⟩

/-- C8: `VertexArray::set_layout` never reads its receiver: two calls
on distinct `VertexArray` values produce identical driver states, and
the attribute configuration is recorded for whatever vertex array is
currently bound, sourcing whatever `ARRAY_BUFFER` is currently bound,
always with the hard-coded byte offset 0. -/
theorem c8_set_layout_ignores_receiver (va vb : VertexArray)
    (location : Nat) (count : Int) (data_type : Nat) (normalized : Bool)
    (stride : Int) (s : GLState) :
    va.set_layout location count data_type normalized stride s
      = vb.set_layout location count data_type normalized stride s
    ∧ (va.set_layout location count data_type normalized stride s).attribPointer
        s.boundVertexArray location
      = some ⟨count, data_type, normalized, stride, 0,
              s.boundBuffer GL_ARRAY_BUFFER⟩ := by
  refine ⟨rfl, ?_⟩
  simp [VertexArray.set_layout, glVertexAttribPointer,
        glEnableVertexAttribArray]

/-- C9: `Buffer::new` is total (no error path: every kind and driver
state yields a `Buffer`), the kind tag is the one fixed at creation,
and both `bind` and `set_data` on the created buffer target that
creation-time kind slot with the creation-time identifier. The Rust
receiver is `&self` throughout, so no operation can change the `id` or
`buffer_type` fields — mirrored here by `bind` and `set_data`
returning only a new driver state. -/
theorem c9_buffer_new_total_kind_fixed (kind : Nat) (s s2 : GLState)
    (S N p usage : Nat) (bytes : List Nat) :
    ((Buffer.new kind s).fst.buffer_type = kind)
    ∧ (Buffer.bind (Buffer.new kind s).fst s2
        = glBindBuffer kind (Buffer.new kind s).fst.id s2)
    ∧ ((Buffer.set_data (Buffer.new kind s).fst S N p bytes usage
          s2).boundBuffer kind
        = (Buffer.new kind s).fst.id) := by
  refine ⟨rfl, rfl, ?_⟩
  simp [Buffer.set_data, Buffer.bind, glBufferData, glBindBuffer,
        Buffer.new, glGenBuffers1]

/-- C10: `declare_attribute` (the source's `set_layout`) registers the
attribute-pointer configuration for the slot with exactly the given
component count, element type, normalization flag and stride, and
enables that attribute slot. -/
theorem c10_set_layout_registers_and_enables (va : VertexArray)
    (location : Nat) (count : Int) (data_type : Nat) (normalized : Bool)
    (stride : Int) (s : GLState) :
    ((va.set_layout location count data_type normalized stride s).attribPointer
        s.boundVertexArray location
      = some ⟨count, data_type, normalized, stride, 0,
              s.boundBuffer GL_ARRAY_BUFFER⟩)
    ∧ ((va.set_layout location count data_type normalized stride s).attribEnabled
        s.boundVertexArray location = true) := by
  constructor <;>
    simp [VertexArray.set_layout, glVertexAttribPointer,
          glEnableVertexAttribArray]
